import Mathlib

/-!
# Verification of the metric normalization, estimation and scoring core

Shallow embedding, in Lean 4, of the algorithmic core of the RateMyCouncil
repository: the metric catalog and matcher (`metrics_framework.py`), the raw
metric lookup and per-metric normalization step of the profile builder
(`data_ingestion.py`), the peer estimator, the state aggregator's median, and
the scoring engine (`scoring.py`).

Modelling conventions:
* Python floats are embedded as exact rationals (`ℚ`); the `round(x, 1)`
  calls applied to returned scores are display formatting and are not part of
  the embedded score computations.
* Python dicts appearing as inputs are embedded as association lists
  (`List (String × _)`) in insertion order; `dict.get`/`in` become
  `List.lookup` / key membership.
* Python string normalization `lower().replace('_',' ').replace('-',' ')`
  replaces single characters only, so it is embedded as a character map over
  `String.data`.
* `if x:` truthiness tests on numbers are embedded as `x ≠ 0` (plus presence,
  for optional values); truthiness of lists/dicts as non-emptiness.
-/

namespace RateMyCouncil

/-! ## String helpers

`lower().replace('_', ' ').replace('-', ' ')` from `_names_similar`
(data_ingestion.py) and `find_matching_metric` (metrics_framework.py); both
replacements are single-character, hence a character map. -/

/-- Embeds `name.lower().replace('_', ' ').replace('-', ' ')` as a list of
characters. -/
def normalizeName (s : String) : List Char :=
  s.data.map (fun c =>
    let lc := c.toLower
    if lc = '_' ∨ lc = '-' then ' ' else lc)

/-- Splits a character list at spaces (accumulator holds the current chunk in
reverse); embedding of Python `str.split()` together with the non-empty
filter in `tokenSetOf`. -/
def splitSpacesAux : List Char → List Char → List (List Char)
  | [], acc => [acc.reverse]
  | c :: rest, acc =>
    if c = ' ' then acc.reverse :: splitSpacesAux rest []
    else splitSpacesAux rest (c :: acc)

/-- Embeds Python `set(normalized.split())`: the distinct whitespace-separated
tokens of the normalized name (`_names_similar`, data_ingestion.py:343-344). -/
def tokenSetOf (s : String) : List (List Char) :=
  ((splitSpacesAux (normalizeName s) []).filter (fun t => t ≠ [])).dedup

/-- `leadMatch pat s` holds when `pat` occurs at the head of `s`. -/
def leadMatch : List Char → List Char → Bool
  | [], _ => true
  | _ :: _, [] => false
  | p :: ps, c :: cs => p = c && leadMatch ps cs

/-- Embeds the Python substring test `pat in s` on character lists. -/
def listContainsSub (pat : List Char) : List Char → Bool
  | [] => leadMatch pat []
  | c :: rest => leadMatch pat (c :: rest) || listContainsSub pat rest

/-- Embeds `"per_capita" in metric_name` (metrics_framework.py:341). -/
def perCapitaName (name : String) : Bool :=
  listContainsSub "per_capita".data name.data

/-- `sum(l) / len(l)`: arithmetic mean used throughout the scoring engine and
the estimator (the sources always guard against empty lists before dividing). -/
def listMean (l : List ℚ) : ℚ :=
  l.sum / (l.length : ℚ)

/-! ## Metric catalog (metrics_framework.py:50-202)

`StandardizedMetric` keeps the fields the core's algorithms read; the purely
informational fields never read by any embedded algorithm (`display_name`,
`description`, `unit`, `expected_availability`) are omitted. -/

inductive MetricCategory where
  | financial | service_delivery | infrastructure | environmental | community | economic
deriving DecidableEq

structure StandardizedMetric where
  canonical_name : String
  category : MetricCategory
  lower_is_better : Bool := false
  calculation_method : Option String := none
  alternative_sources : List String := []
deriving DecidableEq

/-- Embedding of the `STANDARDIZED_METRICS` catalog list, in source order. -/
def STANDARDIZED_METRICS : List StandardizedMetric := [
  { canonical_name := "rates_revenue_per_capita", category := .financial,
    calculation_method := some "rates_revenue / population_served",
    alternative_sources := ["rates_revenue", "general_rates", "council_rates"] },
  { canonical_name := "total_revenue_per_capita", category := .financial,
    calculation_method := some "total_revenue / population_served" },
  { canonical_name := "operating_deficit_ratio", category := .financial,
    lower_is_better := true,
    calculation_method := some "(total_expenditure - total_revenue) / total_revenue * 100" },
  { canonical_name := "complaint_response_time", category := .service_delivery,
    lower_is_better := true,
    alternative_sources := ["complaint_response_time", "service_response_time", "complaints_handling_time"] },
  { canonical_name := "waste_collection_efficiency", category := .service_delivery,
    alternative_sources := ["waste_collection_efficiency", "kerbside_collection_rate", "waste_service_efficiency"] },
  { canonical_name := "planning_approval_time", category := .service_delivery,
    lower_is_better := true,
    alternative_sources := ["planning_approval_time", "dap_approval_time", "development_approval_time"] },
  { canonical_name := "roads_maintained_per_capita", category := .infrastructure,
    calculation_method := some "roads_maintained_km * 1000 / population_served",
    alternative_sources := ["roads_maintained_km", "sealed_roads_km", "maintained_roads"] },
  { canonical_name := "infrastructure_investment_ratio", category := .infrastructure,
    calculation_method := some "infrastructure_expenditure / total_expenditure * 100" },
  { canonical_name := "waste_recycling_rate", category := .environmental,
    alternative_sources := ["recycling_rate", "waste_diversion_rate", "resource_recovery_rate"] },
  { canonical_name := "carbon_emissions_reduction", category := .environmental,
    alternative_sources := ["emissions_reduction", "carbon_reduction", "ghg_reduction"] },
  { canonical_name := "customer_satisfaction_score", category := .community,
    alternative_sources := ["customer_satisfaction", "resident_satisfaction", "service_satisfaction"] },
  { canonical_name := "community_engagement_rate", category := .community,
    alternative_sources := ["engagement_rate", "participation_rate", "consultation_participation"] },
  { canonical_name := "business_permit_approval_time", category := .economic,
    lower_is_better := true,
    alternative_sources := ["permit_approval_time", "business_licence_time", "development_permit_time"] },
  { canonical_name := "local_employment_rate", category := .economic,
    alternative_sources := ["employment_rate", "local_jobs_rate", "workforce_participation"] }]

/-- Embedding of `STATE_METRIC_MAPPINGS` (metrics_framework.py:205-262):
per state, an association list from canonical names to alias lists, in source
order (Python dicts iterate in insertion order). -/
def STATE_METRIC_MAPPINGS : List (String × List (String × List String)) := [
  ("Victoria", [
    ("complaint_response_time", ["complaints_resolution_time", "service_request_response"]),
    ("waste_collection_efficiency", ["waste_service_performance", "kerbside_service_level"]),
    ("planning_approval_time", ["planning_decision_time", "development_assessment_time"]),
    ("waste_recycling_rate", ["resource_recovery_rate", "diversion_rate"]),
    ("customer_satisfaction_score", ["resident_satisfaction", "community_satisfaction"])]),
  ("NSW", [
    ("complaint_response_time", ["complaints_handling_time", "customer_service_time"]),
    ("waste_collection_efficiency", ["waste_collection_performance", "domestic_waste_service"]),
    ("planning_approval_time", ["development_consent_time", "da_processing_time"]),
    ("waste_recycling_rate", ["recycling_diversion_rate", "waste_diversion"]),
    ("customer_satisfaction_score", ["resident_survey_score", "customer_feedback_score"])]),
  ("Queensland", [
    ("complaint_response_time", ["complaints_response_time", "enquiry_resolution_time"]),
    ("waste_collection_efficiency", ["waste_management_performance", "collection_service_level"]),
    ("planning_approval_time", ["development_approval_time", "planning_scheme_time"]),
    ("waste_recycling_rate", ["material_recovery_rate", "recycling_performance"]),
    ("customer_satisfaction_score", ["community_satisfaction", "resident_experience_score"])]),
  ("WA", [
    ("complaint_response_time", ["complaints_management_time", "service_response_time"]),
    ("waste_collection_efficiency", ["waste_service_delivery", "collection_efficiency"]),
    ("planning_approval_time", ["development_assessment_time", "planning_approval_period"]),
    ("waste_recycling_rate", ["recycling_rate", "waste_recovery_rate"]),
    ("customer_satisfaction_score", ["customer_satisfaction", "resident_satisfaction"])]),
  ("SA", [
    ("complaint_response_time", ["complaints_response_time", "customer_complaints_time"]),
    ("waste_collection_efficiency", ["waste_collection_service", "domestic_waste_efficiency"]),
    ("planning_approval_time", ["development_approval_time", "planning_consent_time"]),
    ("waste_recycling_rate", ["recycling_performance", "waste_diversion_rate"]),
    ("customer_satisfaction_score", ["community_satisfaction", "resident_satisfaction"])]),
  ("Tasmania", [
    ("complaint_response_time", ["complaints_handling", "service_complaints_time"]),
    ("waste_collection_efficiency", ["waste_service_performance", "collection_service"]),
    ("planning_approval_time", ["planning_approval_time", "development_approval"]),
    ("waste_recycling_rate", ["recycling_rate", "resource_recovery"]),
    ("customer_satisfaction_score", ["customer_satisfaction", "community_feedback"])]),
  ("NT", [
    ("complaint_response_time", ["complaints_response", "service_request_time"]),
    ("waste_collection_efficiency", ["waste_collection", "waste_management_service"]),
    ("planning_approval_time", ["development_approval", "planning_permission_time"]),
    ("waste_recycling_rate", ["recycling_rate", "waste_recycling"]),
    ("customer_satisfaction_score", ["resident_satisfaction", "customer_service_score"])]),
  ("ACT", [
    ("complaint_response_time", ["complaints_resolution", "service_response"]),
    ("waste_collection_efficiency", ["waste_collection_efficiency", "waste_service"]),
    ("planning_approval_time", ["development_approval", "da_approval_time"]),
    ("waste_recycling_rate", ["recycling_rate", "waste_diversion"]),
    ("customer_satisfaction_score", ["resident_satisfaction", "community_satisfaction"])])]

/-- `get_metric_definition` (metrics_framework.py:275-277): dictionary lookup
`metrics_by_name.get(canonical_name)`; the dict is keyed by the (unique)
canonical names in catalog order, so this is the first catalog entry with the
given name. -/
def get_metric_definition (canonical_name : String) : Option StandardizedMetric :=
  STANDARDIZED_METRICS.find? (fun m => m.canonical_name = canonical_name)

/-- Tier-1 test of `find_matching_metric`: `raw_name in self.metrics_by_name`. -/
def tier1_hit (raw_name : String) : Bool :=
  STANDARDIZED_METRICS.any (fun m => m.canonical_name = raw_name)

/-- Tier-2 test of `find_matching_metric`: some catalog entry has an
`alternative_sources` element equal to `raw_name` after normalization. -/
def tier2_hit (raw_name : String) : Bool :=
  STANDARDIZED_METRICS.any (fun m =>
    m.alternative_sources.any (fun alt => normalizeName alt = normalizeName raw_name))

/-- Tier-3 test of `find_matching_metric`: the supplied state has a synonym
table containing an alias equal to `raw_name` after normalization.  `state`
is `none` for Python `None` (and the falsy empty string). -/
def tier3_hit (raw_name : String) (state : Option String) : Bool :=
  match state.bind (fun st => STATE_METRIC_MAPPINGS.lookup st) with
  | some mp => mp.any (fun p => p.2.any (fun a => normalizeName a = normalizeName raw_name))
  | none => false

/-- `find_matching_metric` (metrics_framework.py:279-301).  Exact canonical
match, then alternative-source match (catalog order, first alias wins), then
state-synonym match; `None` otherwise.  The source indexes
`metrics_by_name[std_name]` on a state-table hit, which always succeeds
because every state-table key is canonical; the embedding's `Option.map`
covers the same cases. -/
def find_matching_metric (raw_name : String) (state : Option String) :
    Option (String × StandardizedMetric) :=
  let rawLower := normalizeName raw_name
  match get_metric_definition raw_name with
  | some m => some (raw_name, m)
  | none =>
    match STANDARDIZED_METRICS.findSome? (fun m =>
        if m.alternative_sources.any (fun alt => normalizeName alt = rawLower) then
          some (m.canonical_name, m)
        else none) with
    | some r => some r
    | none =>
      match state.bind (fun st => STATE_METRIC_MAPPINGS.lookup st) with
      | some mp =>
        mp.findSome? (fun p =>
          if p.2.any (fun a => normalizeName a = rawLower) then
            (get_metric_definition p.1).map (fun m => (p.1, m))
          else none)
      | none => none

/-- `_names_similar` (data_ingestion.py:332-347): equality of the normalized
names, or distinct-token overlap of at least `0.6 × min(|tokens1|, |tokens2|)`.
The float comparison `overlap >= min * 0.6` is embedded exactly as
`10 * overlap ≥ 6 * min` over ℕ. -/
def names_similar (name1 name2 : String) : Bool :=
  if normalizeName name1 = normalizeName name2 then true
  else
    let t1 := tokenSetOf name1
    let t2 := tokenSetOf name2
    let overlap := (t1.filter (fun x => t2.contains x)).length
    10 * overlap ≥ 6 * min t1.length t2.length

/-! ## Value normalizer (metrics_framework.py:303-324)

`normalize_value` substitutes the non-null entries of `council_data` into the
metric's `calculation_method` string and evaluates it with Python `eval`,
falling back to `raw_value` on any exception.  The embedding evaluates the
five arithmetic formulas occurring in the catalog by direct variable lookup;
a variable absent from the context is a `NameError`, a zero denominator is a
`ZeroDivisionError`, and any other formula string is `SyntaxError`
(malformed), matching the exceptions `eval` can raise for these formulas. -/

/-- A context variable, or a `NameError` when the name is never substituted. -/
def lookupVar (ctx : List (String × ℚ)) (k : String) : Except String ℚ :=
  match ctx.lookup k with
  | some v => Except.ok v
  | none => Except.error "NameError"

/-- Evaluation of a `calculation_method` formula over a context. -/
def evalCalc (formula : String) (ctx : List (String × ℚ)) : Except String ℚ :=
  if formula = "rates_revenue / population_served" then do
    let a ← lookupVar ctx "rates_revenue"
    let b ← lookupVar ctx "population_served"
    if b = 0 then Except.error "ZeroDivisionError" else pure (a / b)
  else if formula = "total_revenue / population_served" then do
    let a ← lookupVar ctx "total_revenue"
    let b ← lookupVar ctx "population_served"
    if b = 0 then Except.error "ZeroDivisionError" else pure (a / b)
  else if formula = "(total_expenditure - total_revenue) / total_revenue * 100" then do
    let e ← lookupVar ctx "total_expenditure"
    let r ← lookupVar ctx "total_revenue"
    if r = 0 then Except.error "ZeroDivisionError" else pure ((e - r) / r * 100)
  else if formula = "roads_maintained_km * 1000 / population_served" then do
    let k ← lookupVar ctx "roads_maintained_km"
    let p ← lookupVar ctx "population_served"
    if p = 0 then Except.error "ZeroDivisionError" else pure (k * 1000 / p)
  else if formula = "infrastructure_expenditure / total_expenditure * 100" then do
    let i ← lookupVar ctx "infrastructure_expenditure"
    let e ← lookupVar ctx "total_expenditure"
    if e = 0 then Except.error "ZeroDivisionError" else pure (i / e * 100)
  else Except.error "SyntaxError"

/-- `normalize_value` (metrics_framework.py:303-324).  Applies the metric's
formula only when the metric exists, has a `calculation_method`, and
`council_data` is truthy (non-empty); the bare `except:` around `eval` maps
to the `Except.error` branch returning `raw_value`. -/
def normalize_value (raw_value : ℚ) (metric_name : String)
    (council_data : List (String × ℚ)) : ℚ :=
  match get_metric_definition metric_name with
  | none => raw_value
  | some m =>
    match m.calculation_method with
    | none => raw_value
    | some f =>
      if council_data.isEmpty then raw_value
      else
        match evalCalc f council_data with
        | Except.ok v => v
        | Except.error _ => raw_value

/-! ## Peer estimator (metrics_framework.py:334-356, data_ingestion.py:364-396) -/

/-- One entry of the `peer_data` list built by `_get_peer_council_data`
(data_ingestion.py:385-391): a dict with exactly these five keys.
`population_served` keeps its possibly-null database value. -/
structure PeerData where
  population_served : Option ℚ
  rates_revenue_per_capita : Option ℚ
  total_revenue_per_capita : Option ℚ
  customer_satisfaction_score : Option ℚ
  waste_collection_efficiency : Option ℚ
deriving DecidableEq

/-- `peer.get(metric_name)`: key lookup in the five-key peer dict, `none` for
any other key. -/
def peerGet (p : PeerData) (name : String) : Option ℚ :=
  if name = "population_served" then p.population_served
  else if name = "rates_revenue_per_capita" then p.rates_revenue_per_capita
  else if name = "total_revenue_per_capita" then p.total_revenue_per_capita
  else if name = "customer_satisfaction_score" then p.customer_satisfaction_score
  else if name = "waste_collection_efficiency" then p.waste_collection_efficiency
  else none

/-- The similarity test of `estimate_missing_metric`
(metrics_framework.py:345-348), evaluated as the source evaluates it:
`abs(peer.get("population_served", 0) - population) / population < 0.5`.
The key is always present in the peer dict, but its value may be null
(`CouncilMetrics.population_served` is a nullable column), in which case
`abs(None - population)` raises an uncaught `TypeError`; the embedding makes
that exception explicit as `Except.error "TypeError"`. -/
def peerSimilarE (population : ℚ) (p : PeerData) : Except String Bool :=
  match p.population_served with
  | some q => Except.ok (decide (|q - population| / population < 0.5))
  | none => Except.error "TypeError"

/-- The total restriction of `peerSimilarE` to peers whose
`population_served` is non-null; on that domain the two agree
(`filterE_peerSimilarE_ok`).  Used by the total `estimate_missing_metric`
below. -/
def peerSimilar (population : ℚ) (p : PeerData) : Bool :=
  match p.population_served with
  | some q => |q - population| / population < 0.5
  | none => false

/-- A Python filtering list comprehension whose predicate can raise: the
predicate is evaluated on each element in list order and the first raised
exception propagates, aborting the whole comprehension. -/
def filterE {α ε : Type} (f : α → Except ε Bool) : List α → Except ε (List α)
  | [] => Except.ok []
  | a :: l =>
    match f a with
    | Except.error e => Except.error e
    | Except.ok b =>
      match filterE f l with
      | Except.error e => Except.error e
      | Except.ok r => Except.ok (if b then a :: r else r)

/-- `estimate_missing_metric` (metrics_framework.py:334-356) with exceptions
explicit.  Applies only to catalog metrics whose name contains `per_capita`
when `population_served` is a key of `council_data`; requires a truthy
population and a non-empty peer list, keeps peers passing the similarity
test, and averages their non-null values for `metric_name`; every other
path returns `None` — except that a peer with a null `population_served`
makes the similarity comprehension raise `TypeError`, which nothing in the
source catches. -/
def estimate_missing_metricE (metric_name : String) (council_data : List (String × ℚ))
    (peer_councils_data : List PeerData) : Except String (Option ℚ) :=
  match get_metric_definition metric_name with
  | none => Except.ok none
  | some _ =>
    if perCapitaName metric_name ∧ (council_data.lookup "population_served").isSome then
      match council_data.lookup "population_served" with
      | some population =>
        if population ≠ 0 ∧ ¬peer_councils_data.isEmpty then
          match filterE (peerSimilarE population) peer_councils_data with
          | Except.error e => Except.error e
          | Except.ok similar_councils =>
            let values := similar_councils.filterMap (fun c => peerGet c metric_name)
            if values.isEmpty then Except.ok none
            else Except.ok (some (values.sum / (values.length : ℚ)))
        else Except.ok none
      | none => Except.ok none
    else Except.ok none

/-- The total variant of `estimate_missing_metricE`, using the total
similarity filter: on peer lists whose `population_served` values are all
non-null — the domain on which the source does not raise — the fallible
embedding returns exactly `Except.ok` of this value
(`estimate_missing_metricE_eq_ok`). -/
def estimate_missing_metric (metric_name : String) (council_data : List (String × ℚ))
    (peer_councils_data : List PeerData) : Option ℚ :=
  match get_metric_definition metric_name with
  | none => none
  | some _ =>
    if perCapitaName metric_name ∧ (council_data.lookup "population_served").isSome then
      match council_data.lookup "population_served" with
      | some population =>
        if population ≠ 0 ∧ ¬peer_councils_data.isEmpty then
          let similar_councils := peer_councils_data.filter (peerSimilar population)
          let values := similar_councils.filterMap (fun c => peerGet c metric_name)
          if values.isEmpty then none
          else some (values.sum / (values.length : ℚ))
        else none
      | none => none
    else none

/-- A `Council` registry row joined with its (optional) `CouncilMetrics` row,
as read by `_get_peer_council_data` (data_ingestion.py:364-396). -/
structure CouncilMetricsRec where
  population_served : Option ℚ
  rates_revenue : Option ℚ
  total_revenue : Option ℚ
  customer_satisfaction : Option ℚ
deriving DecidableEq

structure CouncilRec where
  state : String
  population : Option ℚ
  metrics : Option CouncilMetricsRec
deriving DecidableEq

/-- The peer-dict fields computed at data_ingestion.py:385-391; Python
truthiness makes the per-capita entries `None` unless numerator and
denominator are both non-null and non-zero. -/
def mkPeerData (m : CouncilMetricsRec) : PeerData where
  population_served := m.population_served
  rates_revenue_per_capita :=
    match m.rates_revenue, m.population_served with
    | some r, some p => if r ≠ 0 ∧ p ≠ 0 then some (r / p) else none
    | _, _ => none
  total_revenue_per_capita :=
    match m.total_revenue, m.population_served with
    | some r, some p => if r ≠ 0 ∧ p ≠ 0 then some (r / p) else none
    | _, _ => none
  customer_satisfaction_score := m.customer_satisfaction
  waste_collection_efficiency := none

/-- `_get_peer_council_data` (data_ingestion.py:364-396): same-state councils
with population in the inclusive SQL `BETWEEN` band
`[population × 0.5, population × 1.5]`, capped at 5, each contributing a peer
dict when it has a metrics row (a null registry population never satisfies
`BETWEEN`). -/
def get_peer_council_data (councils : List CouncilRec) (population : ℚ)
    (state : String) : List PeerData :=
  let peers := (councils.filter (fun c =>
    decide (c.state = state) &&
      match c.population with
      | some p => decide (population * 0.5 ≤ p ∧ p ≤ population * 1.5)
      | none => false)).take 5
  peers.filterMap (fun c => c.metrics.map mkPeerData)

/-! ## Profile builder: raw lookup and per-metric normalization
(data_ingestion.py:170-214, 311-352) -/

/-- `_find_matching_raw_metric` (data_ingestion.py:311-330): direct key
lookup, then matcher-based lookup, then the first raw entry (payload order)
whose key is `names_similar` to the canonical name. -/
def find_matching_raw_metric (canonical_name : String) (raw_metrics : List (String × ℚ))
    (state : Option String) : Option ℚ :=
  match raw_metrics.lookup canonical_name with
  | some v => some v
  | none =>
    let fuzzy := (raw_metrics.find? (fun kv => names_similar canonical_name kv.1)).map Prod.snd
    match find_matching_metric canonical_name state with
    | some (std_name, _) =>
      match raw_metrics.lookup std_name with
      | some v => some v
      | none => fuzzy
    | none => fuzzy

/-- `_identify_source` (data_ingestion.py:349-352): the source attribution is
a placeholder returning the constant string. -/
def identify_source (_metric_name : String) : String :=
  "multiple_sources"

/-- One entry of `standardized_metrics` as built by `normalize_council_data`
(data_ingestion.py:185-203). -/
structure Observation where
  value : ℚ
  raw_value : Option ℚ
  source : String
  confidence : String
deriving DecidableEq

/-- The per-catalog-metric loop body of `normalize_council_data`
(data_ingestion.py:172-204): a matched raw value is normalized and stored
with the placeholder source attribution and `high` confidence; otherwise an
estimate is stored as `estimated`/`medium`; otherwise the metric is absent.
The loop body reads the catalog entry only through its `canonical_name`.
The estimation branch uses the total `estimate_missing_metric`, which equals
the fallible `estimate_missing_metricE` on peer lists whose
`population_served` values are all non-null; on a null one the source's loop
would instead propagate the estimator's `TypeError`. -/
def normalize_metric_entry (canonical_name : String) (raw_metrics : List (String × ℚ))
    (council_info : List (String × ℚ)) (state : Option String)
    (peers : List PeerData) : Option Observation :=
  match find_matching_raw_metric canonical_name raw_metrics state with
  | some matched_value =>
    some { value := normalize_value matched_value canonical_name council_info,
           raw_value := some matched_value,
           source := identify_source canonical_name,
           confidence := "high" }
  | none =>
    match estimate_missing_metric canonical_name council_info peers with
    | some estimated_value =>
      some { value := estimated_value, raw_value := none,
             source := "estimated", confidence := "medium" }
    | none => none

/-! ## Aggregator median (data_ingestion.py:476-479) -/

/-- `sorted(values)[len(values) // 2]` computed inside `if values:`
(data_ingestion.py:479); Python's `sorted` is embedded as `insertionSort`
by `≤` (any stable comparison sort of rationals produces the same list). -/
def aggregate_median (values : List ℚ) : Option ℚ :=
  if values.isEmpty then none
  else (List.insertionSort (· ≤ ·) values).get? (values.length / 2)

/-! ## Scoring engine (scoring.py)

Component scores and the overall score are embedded as their exact values;
each source function applies `round(·, 1)` only when formatting its return
dict. -/

/-- The `self.weights` dict of `ScoringEngine.__init__` (scoring.py:15-21). -/
def weights : List (String × ℚ) :=
  [("customer_satisfaction", 0.4),
   ("service_delivery", 0.3),
   ("value_for_rates", 0.2),
   ("responsiveness", 0.1)]

/-- `self.weights[key]` (the four keys used all exist). -/
def weight (key : String) : ℚ :=
  (weights.lookup key).getD 0

/-- The weighted combination at scoring.py:38-43, over the four component
scores. -/
def calculate_overall_score (customer_score service_score value_score
    responsiveness_score : ℚ) : ℚ :=
  customer_score * weight "customer_satisfaction" +
  service_score * weight "service_delivery" +
  value_score * weight "value_for_rates" +
  responsiveness_score * weight "responsiveness"

/-- A rating record as consumed by `_calculate_service_delivery_score`: the
`service_category` and the 1-5 star `rating` value. -/
abbrev RatingRec := String × ℚ

/-- The distinct keys of the `service_ratings` dict (scoring.py:144-149),
grouping ratings by `service_category`. -/
def categoriesOf (ratings : List RatingRec) : List String :=
  (ratings.map Prod.fst).dedup

/-- The per-category list `service_ratings[cat]` of scores `rating * 20`. -/
def categoryScores (ratings : List RatingRec) (cat : String) : List ℚ :=
  (ratings.filter (fun r => r.1 = cat)).map (fun r => r.2 * 20)

/-- `avg_service_rating` (scoring.py:152-155): the mean over categories of
each category's mean score. -/
def avg_service_rating (ratings : List RatingRec) : ℚ :=
  listMean ((categoriesOf ratings).map (fun c => listMean (categoryScores ratings c)))

/-- `_calculate_service_delivery_score` (scoring.py:133-169): accumulate
`official * 0.7` when the official score is truthy (present and non-zero) and
`avg_service_rating * 0.3` when any rating exists, counting each contribution
as one data point, then divide the sum by the number of data points; with no
data points the neutral default 50 is returned.  The returned value is the
source's `final_score` (`score` in its dict is `round(final_score, 1)`). -/
def service_delivery_score (official : Option ℚ) (ratings : List RatingRec) : ℚ :=
  let score1 : ℚ := match official with
    | some v => if v = 0 then 0 else v * 0.7
    | none => 0
  let points1 : ℕ := match official with
    | some v => if v = 0 then 0 else 1
    | none => 0
  let score2 : ℚ := if ratings.isEmpty then score1 else score1 + avg_service_rating ratings * 0.3
  let points2 : ℕ := if ratings.isEmpty then points1 else points1 + 1
  if points2 = 0 then 50 else score2 / (points2 : ℚ)

/-- The outlier filter of `_filter_suspicious_ratings` (scoring.py:241):
points kept are those with `abs(s - mean) <= 3 * std_dev` where
`std_dev = sqrt(variance)`; since both sides are non-negative this is exactly
`(s - mean)² ≤ 9 * variance`, which keeps the embedding inside ℚ. -/
def suspicious_kept (scores : List ℚ) : List ℚ :=
  let mean_score := listMean scores
  let variance := listMean (scores.map (fun x => (x - mean_score) * (x - mean_score)))
  scores.filter (fun s => decide ((s - mean_score) * (s - mean_score) ≤ 9 * variance))

/-- `_filter_suspicious_ratings` (scoring.py:231-247): lists of fewer than 3
samples pass unchanged; otherwise drop the 3-standard-deviation outliers, but
fall back to the unfiltered list when the filter would keep fewer than
`len(scores) * 0.5` samples (`2 * kept < len` is the exact ℚ comparison). -/
def filter_suspicious_ratings (scores : List ℚ) : List ℚ :=
  if scores.length < 3 then scores
  else if 2 * (suspicious_kept scores).length < scores.length then scores
  else suspicious_kept scores

/-- `spike_ratio` (scoring.py:294-297). -/
def spike_ratio (recent_issues previous_issues : ℕ) : ℚ :=
  if previous_issues = 0 then (recent_issues : ℚ) * 2
  else (recent_issues : ℚ) / (previous_issues : ℚ)

/-- `min(100, spike_ratio * 25)` (scoring.py:300), as a function of the
ratio. -/
def red_flag_score_of_ratio (ratio : ℚ) : ℚ :=
  min 100 (ratio * 25)

/-- The `red_flag_score` of `calculate_red_flag_index` (scoring.py:294-300). -/
def red_flag_score (recent_issues previous_issues : ℕ) : ℚ :=
  red_flag_score_of_ratio (spike_ratio recent_issues previous_issues)

/-- The `confidence` field of `calculate_red_flag_index` (scoring.py:307). -/
def red_flag_confidence (recent_issues previous_issues : ℕ) : String :=
  if 10 ≤ recent_issues + previous_issues then "medium" else "low"

/-! ## Helper lemmas -/

theorem listMean_le_of_forall_le {l : List ℚ} {B : ℚ} (hne : l ≠ [])
    (h : ∀ x ∈ l, x ≤ B) : listMean l ≤ B := by
  have hlen : (0 : ℚ) < (l.length : ℚ) := by
    exact_mod_cast List.length_pos.mpr hne
  rw [listMean, div_le_iff₀ hlen]
  calc l.sum ≤ l.length • B := List.sum_le_card_nsmul l B h
    _ = (l.length : ℚ) * B := nsmul_eq_mul _ _
    _ = B * (l.length : ℚ) := mul_comm _ _

theorem categoryScores_ne_nil {ratings : List RatingRec} {c : String}
    (hc : c ∈ categoriesOf ratings) : categoryScores ratings c ≠ [] := by
  rw [categoriesOf, List.mem_dedup] at hc
  obtain ⟨r, hr, hrc⟩ := List.mem_map.mp hc
  have hmem : r ∈ ratings.filter (fun r => r.1 = c) :=
    List.mem_filter.mpr ⟨hr, by simp [hrc]⟩
  intro hnil
  rw [categoryScores, List.map_eq_nil_iff] at hnil
  rw [hnil] at hmem
  exact absurd hmem (List.not_mem_nil r)

theorem avg_service_rating_le {ratings : List RatingRec} (hne : ratings ≠ [])
    (h5 : ∀ r ∈ ratings, r.2 ≤ 5) : avg_service_rating ratings ≤ 100 := by
  apply listMean_le_of_forall_le
  · simp only [ne_eq, List.map_eq_nil_iff, categoriesOf, List.dedup_eq_nil]
    simpa using hne
  · intro x hx
    obtain ⟨c, hc, rfl⟩ := List.mem_map.mp hx
    apply listMean_le_of_forall_le (categoryScores_ne_nil hc)
    intro y hy
    rw [categoryScores] at hy
    obtain ⟨r, hr, rfl⟩ := List.mem_map.mp hy
    have h2 := h5 r (List.mem_filter.mp hr).1
    linarith

/-- On peers with non-null `population_served` the fallible similarity
comprehension never raises and agrees with the total filter. -/
theorem filterE_peerSimilarE_ok {population : ℚ} {peers : List PeerData}
    (h : ∀ p ∈ peers, p.population_served ≠ none) :
    filterE (peerSimilarE population) peers =
      Except.ok (peers.filter (peerSimilar population)) := by
  induction peers with
  | nil => rfl
  | cons a l ih =>
    have ha := h a (List.mem_cons_self a l)
    cases hq : a.population_served with
    | none => exact absurd hq ha
    | some q =>
      have hih := ih (fun p hp => h p (List.mem_cons_of_mem a hp))
      simp only [filterE, peerSimilarE, peerSimilar, hq, hih, List.filter_cons]

/-- A peer with a null `population_served` anywhere in the list makes the
similarity comprehension raise `TypeError`. -/
theorem filterE_peerSimilarE_error {population : ℚ} {peers : List PeerData}
    {p : PeerData} (hp : p ∈ peers) (hnull : p.population_served = none) :
    filterE (peerSimilarE population) peers = Except.error "TypeError" := by
  induction peers with
  | nil => exact absurd hp (List.not_mem_nil p)
  | cons a l ih =>
    rcases List.mem_cons.mp hp with rfl | hmem
    · simp only [filterE, peerSimilarE, hnull]
    · cases hq : a.population_served with
      | none => simp only [filterE, peerSimilarE, hq]
      | some q => simp only [filterE, peerSimilarE, hq, ih hmem]

/-- On peer lists whose `population_served` values are all non-null — the
inputs on which the source raises no exception — the fallible estimator
returns exactly `Except.ok` of the total one. -/
theorem estimate_missing_metricE_eq_ok (metric_name : String)
    (council_data : List (String × ℚ)) (peers : List PeerData)
    (h : ∀ p ∈ peers, p.population_served ≠ none) :
    estimate_missing_metricE metric_name council_data peers =
      Except.ok (estimate_missing_metric metric_name council_data peers) := by
  cases hfind : get_metric_definition metric_name with
  | none => simp only [estimate_missing_metricE, estimate_missing_metric, hfind]
  | some m =>
    cases hlk : council_data.lookup "population_served" with
    | none => simp [estimate_missing_metricE, estimate_missing_metric, hfind, hlk]
    | some population =>
      simp only [estimate_missing_metricE, estimate_missing_metric, hfind, hlk,
        Option.isSome_some, and_true]
      split_ifs with h1 h2 hie
      · rw [filterE_peerSimilarE_ok h]
        simp [hie]
      · rw [filterE_peerSimilarE_ok h]
        simp [hie]
      · rfl
      · rfl

/-! ## Claims -/

/-- C4: the four component weights of the scoring engine sum to exactly 1,
and the overall score is the fixed-weight combination
`0.4 × customerSatisfaction + 0.3 × serviceDelivery + 0.2 × valueForRates
+ 0.1 × responsiveness` of the four component scores. -/
theorem c4_weights_sum_and_overall_score :
    (weights.map Prod.snd).sum = 1 ∧
    ∀ customer_score service_score value_score responsiveness_score : ℚ,
      calculate_overall_score customer_score service_score value_score responsiveness_score =
        0.4 * customer_score + 0.3 * service_score +
          0.2 * value_score + 0.1 * responsiveness_score := by
  constructor
  · norm_num [weights]
  · intro c s v r
    have h1 : weight "customer_satisfaction" = 0.4 := rfl
    have h2 : weight "service_delivery" = 0.3 := rfl
    have h3 : weight "value_for_rates" = 0.2 := rfl
    have h4 : weight "responsiveness" = 0.1 := rfl
    rw [calculate_overall_score, h1, h2, h3, h4]
    ring

/-- C5: the anti-gaming filter returns a sublist of the rating scores of size
at least half the input size; with fewer than 3 samples the input is returned
unchanged; with at least 3 samples the 3-standard-deviation outliers are
dropped, unless that would keep fewer than half the samples, in which case
the unfiltered list is returned. -/
theorem c5_anti_gaming_filter (scores : List ℚ) :
    (filter_suspicious_ratings scores).Sublist scores ∧
    scores.length ≤ 2 * (filter_suspicious_ratings scores).length ∧
    (scores.length < 3 → filter_suspicious_ratings scores = scores) ∧
    (3 ≤ scores.length → 2 * (suspicious_kept scores).length < scores.length →
      filter_suspicious_ratings scores = scores) ∧
    (3 ≤ scores.length → scores.length ≤ 2 * (suspicious_kept scores).length →
      filter_suspicious_ratings scores = suspicious_kept scores) := by
  have hsub : (suspicious_kept scores).Sublist scores := List.filter_sublist _
  rw [filter_suspicious_ratings]
  split_ifs with h1 h2
  · exact ⟨List.Sublist.refl _, by omega, fun _ => rfl,
      fun h3 _ => absurd h3 (by omega), fun h3 _ => absurd h3 (by omega)⟩
  · exact ⟨List.Sublist.refl _, by omega, fun _ => rfl,
      fun _ _ => rfl, fun _ hge => absurd h2 (by omega)⟩
  · exact ⟨hsub, by omega, fun hlt => absurd hlt h1,
      fun _ hk => absurd hk h2, fun _ _ => rfl⟩

/-- C5 witness: a 2-element list is below the 3-sample threshold and passes
through unchanged. -/
theorem c5_anti_gaming_filter_witness :
    filter_suspicious_ratings [(1 : ℚ), 2] = [(1 : ℚ), 2] :=
  (c5_anti_gaming_filter [(1 : ℚ), 2]).2.2.1 (by decide)

/-- C6: the red-flag spike ratio is `recent / previous` when `previous > 0`
and `recent × 2` otherwise; the red-flag score is `min(100, ratio × 25)`,
non-decreasing in the ratio and never above 100 (`previous = 0, recent = 3`
gives ratio 6 and score 100); confidence is `medium` exactly when
`recent + previous ≥ 10`, else `low`. -/
theorem c6_red_flag_index :
    (∀ recent_issues previous_issues : ℕ, 0 < previous_issues →
      spike_ratio recent_issues previous_issues =
        (recent_issues : ℚ) / (previous_issues : ℚ)) ∧
    (∀ recent_issues : ℕ, spike_ratio recent_issues 0 = (recent_issues : ℚ) * 2) ∧
    (∀ recent_issues previous_issues : ℕ,
      red_flag_score recent_issues previous_issues =
        min 100 (spike_ratio recent_issues previous_issues * 25)) ∧
    (∀ x y : ℚ, x ≤ y → red_flag_score_of_ratio x ≤ red_flag_score_of_ratio y) ∧
    (∀ recent_issues previous_issues : ℕ,
      red_flag_score recent_issues previous_issues ≤ 100) ∧
    spike_ratio 3 0 = 6 ∧ red_flag_score 3 0 = 100 ∧
    (∀ recent_issues previous_issues : ℕ,
      red_flag_confidence recent_issues previous_issues = "medium" ↔
        10 ≤ recent_issues + previous_issues) := by
  refine ⟨?_, ?_, ?_, ?_, ?_, ?_, ?_, ?_⟩
  · intro r p hp
    rw [spike_ratio, if_neg (Nat.pos_iff_ne_zero.mp hp)]
  · intro r
    rw [spike_ratio, if_pos rfl]
  · intro r p
    rfl
  · intro x y hxy
    exact min_le_min le_rfl (by linarith)
  · intro r p
    exact min_le_left _ _
  · rw [spike_ratio, if_pos rfl]; norm_num
  · rw [red_flag_score, spike_ratio, if_pos rfl, red_flag_score_of_ratio]
    rw [min_eq_left (by norm_num)]
  · intro r p
    rw [red_flag_confidence]
    split_ifs with h
    · simp [h]
    · simp [h]

/-- C6 witness: monotonicity of the red-flag score applied at ratios 1 ≤ 2. -/
theorem c6_red_flag_index_witness :
    red_flag_score_of_ratio 1 ≤ red_flag_score_of_ratio 2 :=
  c6_red_flag_index.2.2.2.1 1 2 (by norm_num)

/-- The three-case value of `service_delivery_score` when at least one signal
is truthy: only the official score, only ratings, or both. -/
theorem service_delivery_score_official_only {v : ℚ} (hv : v ≠ 0) :
    service_delivery_score (some v) [] = v * 0.7 := by
  simp [service_delivery_score, hv]

theorem service_delivery_score_ratings_only (official : Option ℚ)
    (h : official = none ∨ official = some 0) {ratings : List RatingRec}
    (hne : ratings ≠ []) :
    service_delivery_score official ratings = avg_service_rating ratings * 0.3 := by
  have he : ratings.isEmpty = false := by
    simpa [List.isEmpty_iff] using hne
  rcases h with rfl | rfl <;> simp [service_delivery_score, he]

theorem service_delivery_score_both {v : ℚ} (hv : v ≠ 0) {ratings : List RatingRec}
    (hne : ratings ≠ []) :
    service_delivery_score (some v) ratings =
      (v * 0.7 + avg_service_rating ratings * 0.3) / 2 := by
  have he : ratings.isEmpty = false := by
    simpa [List.isEmpty_iff] using hne
  simp [service_delivery_score, hv, he]

/-- C1 counterexample: with only the official signal present
(`service_delivery_score = 80`, no ratings), the component score is
`80 × 0.7 / 1 = 56`, not the official score 80 that the claim requires when a
single signal "alone determines the score". -/
theorem c1_service_delivery_counterexample :
    service_delivery_score (some 80) [] = 56 ∧ (56 : ℚ) ≠ 80 := by
  constructor
  · simp [service_delivery_score]
    norm_num
  · norm_num

/-- C1 amended: the weighted contribution of each present signal is divided
by the number of present signals, so with only the truthy official score the
component equals `official × 0.7`, with only ratings it equals
`avgServiceRating × 0.3`, and with both it equals
`(official × 0.7 + avgServiceRating × 0.3) / 2` — not the raw single signal
and not the undivided blend. -/
theorem c1_service_delivery_amended :
    (∀ (v : ℚ) (ratings : List RatingRec), v ≠ 0 →
      (ratings = [] → service_delivery_score (some v) ratings = v * 0.7) ∧
      (ratings ≠ [] →
        service_delivery_score (some v) ratings =
          (v * 0.7 + avg_service_rating ratings * 0.3) / 2)) ∧
    (∀ (official : Option ℚ) (ratings : List RatingRec),
      official = none ∨ official = some 0 → ratings ≠ [] →
      service_delivery_score official ratings = avg_service_rating ratings * 0.3) := by
  refine ⟨fun v ratings hv => ⟨?_, ?_⟩, fun official ratings h hne =>
    service_delivery_score_ratings_only official h hne⟩
  · rintro rfl
    exact service_delivery_score_official_only hv
  · intro hne
    exact service_delivery_score_both hv hne

/-- C1 witness: with no official score and one rating category the amended
ratings-only case gives `avgServiceRating × 0.3`. -/
theorem c1_service_delivery_witness :
    service_delivery_score none [("roads", (4 : ℚ))] =
      avg_service_rating [("roads", (4 : ℚ))] * 0.3 :=
  c1_service_delivery_amended.2 none [("roads", (4 : ℚ))] (Or.inl rfl)
    (List.cons_ne_nil _ _)

/-- C10: with the official score (when present) in `[0, 100]` and all ratings
in `1..5`, the serviceDelivery component never exceeds 70: the weighted
contributions are summed and divided by the number of present signals, giving
at most 70 with only the official signal, at most 30 with only ratings, and
at most 50 with both. -/
theorem c10_service_delivery_at_most_70 :
    ∀ (official : Option ℚ) (ratings : List RatingRec),
    (∀ v, official = some v → 0 ≤ v ∧ v ≤ 100) →
    (∀ r ∈ ratings, 1 ≤ r.2 ∧ r.2 ≤ 5) →
    service_delivery_score official ratings ≤ 70 ∧
    (official = none ∨ official = some 0 → ratings ≠ [] →
      service_delivery_score official ratings ≤ 30) ∧
    (∀ v, official = some v → v ≠ 0 → ratings ≠ [] →
      service_delivery_score official ratings ≤ 50) := by
  intro official ratings hOff hRat
  have havg : ratings ≠ [] → avg_service_rating ratings ≤ 100 := fun hne =>
    avg_service_rating_le hne (fun r hr => (hRat r hr).2)
  by_cases hne : ratings = []
  · subst hne
    refine ⟨?_, fun _ h => absurd rfl h, fun v _ _ h => absurd rfl h⟩
    match official with
    | none => norm_num [service_delivery_score]
    | some v =>
      obtain ⟨hv0, hv100⟩ := hOff v rfl
      by_cases hz : v = 0
      · subst hz
        norm_num [service_delivery_score]
      · rw [service_delivery_score_official_only hz]
        linarith
  · have havg2 := havg hne
    match official with
    | none =>
      have hval := service_delivery_score_ratings_only none (Or.inl rfl) hne
      refine ⟨by rw [hval]; linarith, fun _ _ => by rw [hval]; linarith,
        fun v h => by cases h⟩
    | some v =>
      by_cases hz : v = 0
      · subst hz
        have hval := service_delivery_score_ratings_only (some 0) (Or.inr rfl) hne
        refine ⟨by rw [hval]; linarith, fun _ _ => by rw [hval]; linarith, ?_⟩
        intro w hw hwz _
        rw [Option.some.injEq] at hw
        exact absurd hw.symm hwz
      · obtain ⟨hv0, hv100⟩ := hOff v rfl
        have hval := service_delivery_score_both hz hne
        refine ⟨by rw [hval]; linarith,
          fun h _ => by
            rcases h with h | h
            · exact absurd h (Option.some_ne_none v)
            · rw [Option.some.injEq] at h
              exact absurd h hz, ?_⟩
        intro w hw _ _
        rw [Option.some.injEq] at hw
        subst hw
        rw [hval]; linarith

/-- C10 witness: bounds applied at an official score of 80 and one 4-star
rating. -/
theorem c10_service_delivery_at_most_70_witness :
    service_delivery_score (some 80) [("roads", (4 : ℚ))] ≤ 70 :=
  (c10_service_delivery_at_most_70 (some 80) [("roads", (4 : ℚ))]
    (by rintro v hv; rw [Option.some.injEq] at hv; subst hv; norm_num)
    (by rintro r hr; rw [List.mem_singleton] at hr; subst hr; norm_num)).1

/-- C2 counterexample: a raw map containing the canonical key
`waste_recycling_rate` (which has no derivation formula) yields an
observation whose `source` is the placeholder string `multiple_sources`, not
`direct` as the claim requires; `confidence = high` and `rawValue = value`
do hold. -/
theorem c2_direct_source_counterexample :
    normalize_metric_entry "waste_recycling_rate" [("waste_recycling_rate", 42)] [] none [] =
      some { value := 42, raw_value := some 42,
             source := "multiple_sources", confidence := "high" } ∧
    "multiple_sources" ≠ "direct" := by
  exact ⟨by decide, by decide⟩

/-- C2 amended: for every raw payload containing a key exactly equal to a
canonical metric name whose definition has no derivation formula, the built
observation has `source = "multiple_sources"` (the placeholder returned by
`_identify_source` for every matched metric), `confidence = high`, and
`rawValue = value` equal to the raw entry. -/
theorem c2_direct_key_amended :
    ∀ (canonical_name : String) (raw_metrics : List (String × ℚ)) (v : ℚ)
      (council_info : List (String × ℚ)) (state : Option String)
      (peers : List PeerData) (m : StandardizedMetric),
      get_metric_definition canonical_name = some m →
      m.calculation_method = none →
      raw_metrics.lookup canonical_name = some v →
      normalize_metric_entry canonical_name raw_metrics council_info state peers =
        some { value := v, raw_value := some v,
               source := "multiple_sources", confidence := "high" } := by
  intro cn raw v ci st peers m hm hcalc hlk
  simp only [normalize_metric_entry, find_matching_raw_metric, hlk, normalize_value,
    hm, hcalc, identify_source]

/-- C2 witness: the amended observation shape at the formula-free canonical
metric `carbon_emissions_reduction`. -/
theorem c2_direct_key_amended_witness :
    normalize_metric_entry "carbon_emissions_reduction"
      [("carbon_emissions_reduction", 7)] [] none [] =
      some { value := 7, raw_value := some 7,
             source := "multiple_sources", confidence := "high" } :=
  c2_direct_key_amended "carbon_emissions_reduction"
    [("carbon_emissions_reduction", 7)] 7 [] none []
    ⟨"carbon_emissions_reduction", .environmental, false, none,
      ["emissions_reduction", "carbon_reduction", "ghg_reduction"]⟩
    (by decide) rfl (by decide)

/-- C3 counterexample: for the raw name `rates revenue capita` (with region
`Victoria`) tiers 1-3 all fail, and the repository's own fuzzy token-overlap
test accepts the first catalog definition `rates_revenue_per_capita`
(3 shared tokens ≥ 0.6 × min(4, 3)); yet `find_matching_metric` returns
`none` instead of that definition — the matcher has no fuzzy tier. -/
theorem c3_fuzzy_tier_counterexample :
    find_matching_metric "rates revenue capita" (some "Victoria") = none ∧
    tier1_hit "rates revenue capita" = false ∧
    tier2_hit "rates revenue capita" = false ∧
    tier3_hit "rates revenue capita" (some "Victoria") = false ∧
    names_similar "rates_revenue_per_capita" "rates revenue capita" = true := by
  exact ⟨by decide, by decide, by decide, by decide, by decide⟩

/-- C3 amended: when exact canonical equality, normalized alternative-name
equality and state-synonym equality all fail, `find_matching_metric` returns
`none` — it implements no fuzzy tier.  The `0.6 × min` token-overlap fuzzy
fallback lives in the profile builder's `_find_matching_raw_metric`, which,
for a canonical name that is not a raw key, returns the value of the first
raw-payload entry (payload order, not catalog order) whose key passes
`_names_similar` against the canonical name. -/
theorem c3_matcher_amended :
    (∀ (raw_name : String) (state : Option String),
      tier1_hit raw_name = false → tier2_hit raw_name = false →
      tier3_hit raw_name state = false →
      find_matching_metric raw_name state = none) ∧
    (∀ (canonical_name : String) (m : StandardizedMetric)
      (raw_metrics : List (String × ℚ)) (state : Option String),
      get_metric_definition canonical_name = some m →
      raw_metrics.lookup canonical_name = none →
      find_matching_raw_metric canonical_name raw_metrics state =
        (raw_metrics.find? (fun kv => names_similar canonical_name kv.1)).map Prod.snd) := by
  constructor
  · intro raw st h1 h2 h3
    have hd : get_metric_definition raw = none := by
      rw [get_metric_definition, List.find?_eq_none]
      intro m hm
      rw [tier1_hit, List.any_eq_false] at h1
      exact h1 m hm
    rw [find_matching_metric, hd]
    have hFS : STANDARDIZED_METRICS.findSome? (fun m =>
        if m.alternative_sources.any (fun alt =>
            normalizeName alt = normalizeName raw) then
          some (m.canonical_name, m)
        else none) = none := by
      rw [List.findSome?_eq_none_iff]
      intro m hm
      rw [tier2_hit, List.any_eq_false] at h2
      have := h2 m hm
      simp only [Bool.not_eq_true] at this
      rw [if_neg (by simp [this])]
    rw [hFS]
    rw [tier3_hit] at h3
    cases hst : st.bind (fun s => STATE_METRIC_MAPPINGS.lookup s) with
    | none => rfl
    | some mp =>
      rw [hst, List.any_eq_false] at h3
      rw [List.findSome?_eq_none_iff]
      intro p hp
      have := h3 p hp
      simp only [Bool.not_eq_true] at this
      rw [if_neg (by simp [this])]
  · intro cn m raw st hm hlk
    have hmatch : find_matching_metric cn st = some (cn, m) := by
      rw [find_matching_metric, hm]
    simp only [find_matching_raw_metric, hlk, hmatch]

/-- C3 witness: part one of the amended claim applied at a name matching no
tier at all. -/
theorem c3_matcher_amended_witness :
    find_matching_metric "zzz qqq" none = none :=
  c3_matcher_amended.1 "zzz qqq" none (by decide) (by decide) (by decide)

/-- C7 counterexample: a same-region peer whose population is exactly 1.5×
the target's (1500 vs 1000) is selected into the peer set by the inclusive
`BETWEEN` band and carries a non-null `rates_revenue_per_capita` of 42, so
the claim requires `estimate = 42`; but `estimate_missing_metric` re-filters
peers with the strict test `|1500 − 1000| / 1000 < 0.5`, which the boundary
peer fails, and returns `None` (no exception is involved: the peer's
`population_served` is non-null). -/
theorem c7_inclusive_band_counterexample :
    get_peer_council_data
        [⟨"SA", some 1500, some ⟨some 1500, some 63000, none, none⟩⟩] 1000 "SA" =
      [⟨some 1500, some 42, none, none, none⟩] ∧
    estimate_missing_metricE "rates_revenue_per_capita" [("population_served", 1000)]
      [⟨some 1500, some 42, none, none, none⟩] = Except.ok none := by
  constructor
  · norm_num [get_peer_council_data, mkPeerData]
    rw [List.filterMap_cons]
    norm_num [mkPeerData]
  · rw [estimate_missing_metricE_eq_ok _ _ _
      (by intro p hp; rw [List.mem_singleton] at hp; subst hp; simp)]
    have hps : peerSimilar 1000 ⟨some 1500, some 42, none, none, none⟩ = false := by
      have h5 : |(1500 : ℚ) - 1000| = 500 := by
        rw [show (1500 : ℚ) - 1000 = 500 by norm_num]
        exact abs_of_nonneg (by norm_num)
      simp [peerSimilar, h5]
      norm_num
    rw [estimate_missing_metric]
    cases hfind : get_metric_definition "rates_revenue_per_capita" with
    | none => rfl
    | some m =>
      have hpc : perCapitaName "rates_revenue_per_capita" = true := by decide
      simp [hpc, hps, List.lookup]

/-- C7 amended: for a catalog per-capita metric, a known non-zero population
and a non-empty peer list whose recorded `population_served` values are all
non-null, the estimate returns (without raising) the arithmetic mean of the
non-null values of the peers lying strictly within the open relative band
`|population_served − population| / population < 0.5`, and `none` when no
such value exists; peers at exactly 0.5× or 1.5× of the target population
enter the peer set via the inclusive `BETWEEN` selection but are excluded
from the estimation mean by this strict re-filter.  A peer whose
`population_served` is null instead makes the estimator raise an uncaught
`TypeError` at the similarity test. -/
theorem c7_peer_estimator_amended :
    (∀ (metric_name : String) (council_data : List (String × ℚ)) (population : ℚ)
      (peer_councils_data : List PeerData),
      (get_metric_definition metric_name).isSome = true →
      perCapitaName metric_name = true →
      council_data.lookup "population_served" = some population →
      population ≠ 0 → peer_councils_data ≠ [] →
      (∀ p ∈ peer_councils_data, p.population_served ≠ none) →
      (∀ p ∈ peer_councils_data.filter (peerSimilar population),
        ∃ q, p.population_served = some q ∧ |q - population| / population < 0.5) ∧
      (∀ values : List ℚ,
        values = (peer_councils_data.filter (peerSimilar population)).filterMap
          (fun c => peerGet c metric_name) →
        estimate_missing_metricE metric_name council_data peer_councils_data =
          Except.ok (if values.isEmpty then none
            else some (values.sum / (values.length : ℚ))))) ∧
    (∀ (metric_name : String) (council_data : List (String × ℚ)) (population : ℚ)
      (peer_councils_data : List PeerData) (p : PeerData),
      (get_metric_definition metric_name).isSome = true →
      perCapitaName metric_name = true →
      council_data.lookup "population_served" = some population →
      population ≠ 0 →
      p ∈ peer_councils_data → p.population_served = none →
      estimate_missing_metricE metric_name council_data peer_councils_data =
        Except.error "TypeError") := by
  constructor
  · intro name cd pop peers hdef hpc hlk hpz hpne hnonnull
    constructor
    · intro p hp
      have hps := (List.mem_filter.mp hp).2
      rw [peerSimilar] at hps
      cases hq : p.population_served with
      | none => rw [hq] at hps; exact absurd hps (by simp)
      | some q =>
        rw [hq] at hps
        exact ⟨q, rfl, by simpa using hps⟩
    · rintro values rfl
      rw [estimate_missing_metricE_eq_ok _ _ _ hnonnull]
      cases hfind : get_metric_definition name with
      | none => rw [hfind] at hdef; simp at hdef
      | some m =>
        have hee : peers.isEmpty = false := by
          simpa [List.isEmpty_iff] using hpne
        rw [estimate_missing_metric, hfind]
        simp only [hpc, hlk, Option.isSome_some, and_self, if_true, true_and]
        rw [if_pos ⟨hpz, by simp [hee]⟩]
  · intro name cd pop peers p hdef hpc hlk hpz hp hnull
    cases hfind : get_metric_definition name with
    | none => rw [hfind] at hdef; simp at hdef
    | some m =>
      have hpne : peers ≠ [] := List.ne_nil_of_mem hp
      have hee : peers.isEmpty = false := by
        simpa [List.isEmpty_iff] using hpne
      rw [estimate_missing_metricE, hfind]
      simp only [hpc, hlk, Option.isSome_some, and_self, if_true, true_and]
      rw [if_pos ⟨hpz, by simp [hee]⟩, filterE_peerSimilarE_error hp hnull]

/-- C7 witness: a strictly-in-band peer (1200 vs 1000) with a non-null
`total_revenue_per_capita` of 30 gives `Except.ok (some 30)`, and replacing
its `population_served` by null makes the estimator raise `TypeError`. -/
theorem c7_peer_estimator_amended_witness :
    estimate_missing_metricE "total_revenue_per_capita" [("population_served", 1000)]
      [⟨some 1200, none, some 30, none, none⟩] = Except.ok (some 30) ∧
    estimate_missing_metricE "total_revenue_per_capita" [("population_served", 1000)]
      [⟨none, none, some 30, none, none⟩] = Except.error "TypeError" := by
  constructor
  · have h := (c7_peer_estimator_amended.1 "total_revenue_per_capita"
      [("population_served", 1000)] 1000 [⟨some 1200, none, some 30, none, none⟩]
      (by decide) (by decide) rfl (by norm_num) (List.cons_ne_nil _ _)
      (by intro p hp; rw [List.mem_singleton] at hp; subst hp; simp)).2 _ rfl
    rw [h]
    have hps : peerSimilar 1000 ⟨some 1200, none, some 30, none, none⟩ = true := by
      have h2 : |(1200 : ℚ) - 1000| = 200 := by
        rw [show (1200 : ℚ) - 1000 = 200 by norm_num]
        exact abs_of_nonneg (by norm_num)
      simp [peerSimilar, h2]
      norm_num
    simp [hps, peerGet]
  · exact c7_peer_estimator_amended.2 "total_revenue_per_capita"
      [("population_served", 1000)] 1000 [⟨none, none, some 30, none, none⟩]
      ⟨none, none, some 30, none, none⟩
      (by decide) (by decide) rfl (by norm_num) (List.mem_singleton_self _) rfl

/-- C8: whenever evaluating a metric's derivation formula fails — a variable
missing from the context, a zero denominator, or a malformed formula — the
value normalizer returns `rawValue`; and on every input it returns either
`rawValue` or a successfully evaluated formula value, never propagating a
failure (the bare `except:` in the source catches every exception). -/
theorem c8_normalize_value_never_fails :
    (∀ (raw_value : ℚ) (metric_name : String) (council_data : List (String × ℚ))
      (f e : String),
      (get_metric_definition metric_name).bind (fun m => m.calculation_method) = some f →
      evalCalc f council_data = Except.error e →
      normalize_value raw_value metric_name council_data = raw_value) ∧
    (∀ (raw_value : ℚ) (metric_name : String) (council_data : List (String × ℚ)),
      normalize_value raw_value metric_name council_data = raw_value ∨
      ∃ f v,
        (get_metric_definition metric_name).bind (fun m => m.calculation_method) = some f ∧
        council_data ≠ [] ∧ evalCalc f council_data = Except.ok v ∧
        normalize_value raw_value metric_name council_data = v) := by
  constructor
  · intro raw name cd f e hbind herr
    cases hfind : get_metric_definition name with
    | none => rw [hfind] at hbind; exact absurd hbind (by simp)
    | some m =>
      rw [hfind] at hbind
      simp only [Option.some_bind] at hbind
      simp only [normalize_value, hfind, hbind, herr]
      split <;> rfl
  · intro raw name cd
    cases hfind : get_metric_definition name with
    | none => exact Or.inl (by simp [normalize_value, hfind])
    | some m =>
      cases hcalc : m.calculation_method with
      | none => exact Or.inl (by simp [normalize_value, hfind, hcalc])
      | some f =>
        by_cases hcd : cd.isEmpty
        · exact Or.inl (by simp [normalize_value, hfind, hcalc, hcd])
        · cases heval : evalCalc f cd with
          | error e => exact Or.inl (by simp [normalize_value, hfind, hcalc, hcd, heval])
          | ok v =>
            refine Or.inr ⟨f, v, by simp [hcalc], ?_, heval,
              by simp [normalize_value, hfind, hcalc, hcd, heval]⟩
            intro h
            exact hcd (by simp [h])

/-- C8 witness: the deficit-ratio formula with `total_revenue` missing from
the context raises a `NameError` inside the evaluator and the normalizer
falls back to the raw value 7. -/
theorem c8_normalize_value_never_fails_witness :
    normalize_value 7 "operating_deficit_ratio" [("total_expenditure", 5)] = 7 :=
  c8_normalize_value_never_fails.1 7 "operating_deficit_ratio"
    [("total_expenditure", 5)]
    "(total_expenditure - total_revenue) / total_revenue * 100" "NameError"
    (by decide) rfl

/-- C9: for every non-empty value list the aggregator's median is the element
at index `len // 2` of the ascending-sorted values (`insertionSort` is sorted
and a permutation of the input, i.e. Python's `sorted`), and for even-length
lists that element is the upper of the two middle values (it is at least the
element at index `len // 2 − 1`), not their average. -/
theorem c9_aggregator_median :
    ∀ values : List ℚ, values ≠ [] →
      aggregate_median values =
        (List.insertionSort (· ≤ ·) values).get? (values.length / 2) ∧
      (List.insertionSort (· ≤ ·) values).Sorted (· ≤ ·) ∧
      (List.insertionSort (· ≤ ·) values).Perm values ∧
      (values.length % 2 = 0 →
        (List.insertionSort (· ≤ ·) values).getD (values.length / 2 - 1) 0 ≤
          (List.insertionSort (· ≤ ·) values).getD (values.length / 2) 0) := by
  intro values hne
  have hlen : (List.insertionSort (· ≤ ·) values).length = values.length :=
    List.length_insertionSort _ _
  have hsorted : (List.insertionSort (· ≤ ·) values).Sorted (· ≤ ·) :=
    List.sorted_insertionSort _ _
  refine ⟨?_, hsorted, List.perm_insertionSort _ _, ?_⟩
  · rw [aggregate_median, if_neg (by simpa [List.isEmpty_iff] using hne)]
  · intro heven
    have hpos : 0 < values.length := List.length_pos.mpr hne
    have h2 : 2 ≤ values.length := by omega
    have hk1 : values.length / 2 - 1 < (List.insertionSort (· ≤ ·) values).length := by
      omega
    have hk2 : values.length / 2 < (List.insertionSort (· ≤ ·) values).length := by
      omega
    have hrel := hsorted.rel_get_of_lt (a := ⟨values.length / 2 - 1, hk1⟩)
      (b := ⟨values.length / 2, hk2⟩) (by simp [Fin.lt_def]; omega)
    simp only [List.getD_eq_getElem?_getD, List.getElem?_eq_getElem hk1,
      List.getElem?_eq_getElem hk2, Option.getD_some]
    simpa [List.get_eq_getElem] using hrel

/-- C9 witness: the median of `[1, 2, 3, 4]` is the sorted element at index
2 (the upper middle). -/
theorem c9_aggregator_median_witness :
    aggregate_median [(1 : ℚ), 2, 3, 4] =
      (List.insertionSort (· ≤ ·) [(1 : ℚ), 2, 3, 4]).get? 2 :=
  (c9_aggregator_median [(1 : ℚ), 2, 3, 4] (by decide)).1

end RateMyCouncil
